import Mathlib

/-!
Verification of the info-extraction service of `paolobroglio/video-converter`
(`src/atium/utility/service.rs`) against its specification.

The Rust module is a thin orchestration shim around an external media-analysis
tool.  We embed it shallowly: the subprocess call, the filesystem write and the
random-identifier generator are external effects, modelled as an explicit
environment record threaded through the translated functions; the translated
functions themselves mirror the Rust source line by line.  Console output and
attempted file writes are recorded in the result so that observable behaviour
is part of the embedding.
-/

/-- `InfoFormat` from `atium::utility::model` (referenced by `service.rs`):
the requested output format of the analysis report. -/
inductive InfoFormat where
  | Json
  | Html
  | Xml
deriving DecidableEq, Repr

/-- `InfoExtractorEngine` from `atium::utility::model`: the enum of supported
backends, currently the single variant `MediaInfo`. -/
inductive InfoExtractorEngine where
  | MediaInfo
deriving DecidableEq, Repr

/-- `AtiumError` from `atium::common::error`, as used by `service.rs`:
`CommandError` for spawn/exit-status failures, `IOError` for file-write
failures; each carries a message string. -/
inductive AtiumError where
  | CommandError (msg : String)
  | IOError (msg : String)
deriving DecidableEq, Repr

/-- `InfoExtractorRequest` from `atium::utility::model`: input path, optional
format (default JSON), optional full flag (default true), optional output-file
stem. -/
structure InfoExtractorRequest where
  input : String
  format : Option InfoFormat
  full : Option Bool
  output_file : Option String
deriving DecidableEq, Repr

/-- `InfoExtractorResponseOutput` from `atium::utility::model`. -/
structure InfoExtractorResponseOutput where
  file : Option String
deriving DecidableEq, Repr

/-- `InfoExtractorResponse` from `atium::utility::model`. -/
structure InfoExtractorResponse where
  output : InfoExtractorResponseOutput
deriving DecidableEq, Repr

/-- `std::process::Output`: exit status (as its `success()` boolean), captured
standard output and captured standard error, bytes modelled as `List Nat`. -/
structure ProcOutput where
  success : Bool
  stdout : List Nat
  stderr : List Nat
deriving DecidableEq, Repr

/-- Rendering of one decimal digit as a character, used by the model of the
unique-identifier generator. -/
def digitToChar : Nat → Char
  | 0 => Char.mk 48 (by decide)
  | 1 => Char.mk 49 (by decide)
  | 2 => Char.mk 50 (by decide)
  | 3 => Char.mk 51 (by decide)
  | 4 => Char.mk 52 (by decide)
  | 5 => Char.mk 53 (by decide)
  | 6 => Char.mk 54 (by decide)
  | 7 => Char.mk 55 (by decide)
  | 8 => Char.mk 56 (by decide)
  | _ => Char.mk 57 (by decide)

/-- Left inverse of `digitToChar` on decimal digits. -/
def charToDigit (c : Char) : Nat :=
  c.toNat - 48

/-- Modelled from the spec: `Uuid::new_v4().to_string()` of the external
`uuid` crate, the "collision-resistant unique-identifier generator" used for
anonymous output files.  Per the spec the exact algorithm is not load-bearing,
only uniqueness is, so the generator is modelled as an injective function of a
freshness seed (one fresh seed per call), rendering the seed's decimal
digits. -/
def uuidNew (seed : Nat) : String :=
  "uuid-" ++ String.mk ((Nat.digits 10 seed).map digitToChar)

/-- The external environment a single `get_info` call interacts with:
the subprocess layer (`CommandManager::execute_with_args`, whose error case
carries the spawn-level detail the Rust `std::process` error would hold),
the filesystem (`std::fs::write`), and the freshness seed consumed by
`Uuid::new_v4` if it is called. -/
structure Env where
  exec : List String → Except String ProcOutput
  fsWrite : String → List Nat → Except String Unit
  uuidSeed : Nat

/-- The observable outcome of one `get_info` call: the returned
`Result<InfoExtractorResponse, AtiumError>`, the byte strings printed to the
caller-visible output stream (via `CommandManager::print_command_output`), the
argument list passed to the subprocess, and the file writes attempted
(path, contents). -/
structure GetInfoResult where
  result : Except AtiumError InfoExtractorResponse
  console : List (List Nat)
  invoked : List String
  written : List (String × List Nat)
deriving Repr

/-- `CommandManager` from `atium::common::command_manager`: holds the verified
external command fixed at construction time.  Modelled from the spec: the
module is not under `src/`; the spec describes it as the immutable command
path/template fixed at construction. -/
structure CommandManager where
  commandName : String
deriving DecidableEq, Repr

/-- Outcome of running a Rust function that may panic: either a normal return
value or a panic with the panic message. -/
inductive RustOutcome (α : Type) where
  | ok (val : α)
  | panicked (msg : String)
deriving DecidableEq, Repr

/-- The state `InfoExtractorBuilder::new` builds on success: a
`MediaInfoExtractorService { command_manager }`. -/
structure MediaInfoExtractorService where
  command_manager : CommandManager
deriving DecidableEq, Repr

/-- `InfoExtractorBuilder::new` (service.rs:49-62).  `probe` is the outcome of
`CommandManager::new("mediainfo", ["--version"])` — modelled from the spec as
the one-time verification subprocess call, fallible when the external tool
cannot be located or its version probe fails.  The Rust body calls
`.expect("could not load command!")` on that result, so a probe failure panics;
the `Ok` wrapping happens only on the success path. -/
def InfoExtractorBuilder.new (probe : Except String CommandManager)
    (engine : InfoExtractorEngine) :
    RustOutcome (Except AtiumError MediaInfoExtractorService) :=
  match engine with
  | InfoExtractorEngine.MediaInfo =>
    match probe with
    | Except.ok command_manager =>
      RustOutcome.ok (Except.ok { command_manager := command_manager })
    | Except.error _ => RustOutcome.panicked "could not load command!"

/-- The extension match of `write_info_to_file` (service.rs:75-79):
`Json ↦ ".json"`, `Html ↦ ".html"`, `Xml ↦ ".xml"`. -/
def extFor : InfoFormat → String
  | InfoFormat.Json => ".json"
  | InfoFormat.Html => ".html"
  | InfoFormat.Xml => ".xml"

namespace MediaInfoExtractorService

/-- `write_info_to_file` (service.rs:74-97): pick the extension from the
format, substitute a fresh UUID for an empty stem, write the captured stdout
to `<stem><ext>`, return the path or the static error message.  Also records
the attempted write for observability. -/
def write_info_to_file (env : Env) (output : ProcOutput)
    (out_filepath : String) (format : InfoFormat) :
    Except String String × List (String × List Nat) :=
  let ext := extFor format
  let id := if out_filepath.isEmpty then uuidNew env.uuidSeed else out_filepath
  let filename := id
  let path := filename ++ ext
  match env.fsWrite path output.stdout with
  | Except.ok _ => (Except.ok path, [(path, output.stdout)])
  | Except.error _ =>
    (Except.error "could not write to file!", [(path, output.stdout)])

/-- `write_to_stdout` (service.rs:71-73) forwards the captured stdout to
`CommandManager::print_command_output`.  Modelled from the spec: that method
is not under `src/`; the spec says it writes the bytes to the caller-visible
output stream, so it is modelled as succeeding and emitting the bytes. -/
def write_to_stdout (output : ProcOutput) :
    Except AtiumError Unit × List (List Nat) :=
  (Except.ok (), [output.stdout])

/-- `write_result` (service.rs:98-116): with no output file requested, print
stdout and answer `file = None`; with one requested, delegate to
`write_info_to_file` and wrap its error as `IOError`. -/
def write_result (env : Env) (execution_result : ProcOutput)
    (output_file : Option String) (format : InfoFormat) :
    Except AtiumError InfoExtractorResponse × List (List Nat) ×
      List (String × List Nat) :=
  match output_file with
  | none =>
    let printed := write_to_stdout execution_result
    match printed.1 with
    | Except.ok _ => (Except.ok { output := { file := none } }, printed.2, [])
    | Except.error e => (Except.error e, printed.2, [])
  | some output_filepath =>
    let wrote := write_info_to_file env execution_result output_filepath format
    match wrote.1 with
    | Except.ok out =>
      (Except.ok { output := { file := some out } }, [], wrote.2)
    | Except.error err_msg =>
      (Except.error (AtiumError.IOError err_msg), [], wrote.2)

/-- The argument list built by `get_info` (service.rs:124-142): the
`--output=…` argument for the resolved format, then `--full` when the resolved
full flag is set, then the input path. -/
def buildArgs (request : InfoExtractorRequest) : List String :=
  let format := request.format.getD InfoFormat.Json
  let full := request.full.getD true
  let args : List String := []
  let args := args ++ [match format with
    | InfoFormat.Json => "--output=JSON"
    | InfoFormat.Html => "--output=HTML"
    | InfoFormat.Xml => "--output=XML"]
  let args := if full then args ++ ["--full"] else args
  args ++ [request.input]

/-- `get_info` (service.rs:120-156): resolve defaults, build the argument
list, run the external tool; on a non-success exit status print the captured
stdout (the tool writes its errors there) and fail with a `CommandError`; on a
spawn failure fail with a generic `CommandError`; on success route the output
through `write_result`. -/
def get_info (env : Env) (request : InfoExtractorRequest) : GetInfoResult :=
  let format := request.format.getD InfoFormat.Json
  let args := buildArgs request
  match env.exec args with
  | Except.ok execution_result =>
    if !execution_result.success then
      { result := Except.error
          (AtiumError.CommandError "Command execution returned ERROR status")
        console := [execution_result.stdout]
        invoked := args
        written := [] }
    else
      let routed := write_result env execution_result request.output_file format
      { result := routed.1
        console := routed.2.1
        invoked := args
        written := routed.2.2 }
  | Except.error _ =>
    { result := Except.error (AtiumError.CommandError "Could not execute command")
      console := []
      invoked := args
      written := [] }

end MediaInfoExtractorService

/-- The extension the spec maps each format to (spec §8, `.json`/`.html`/
`.xml`); used to state the claims, to be compared with the code's mapping. -/
def specExt : InfoFormat → String
  | InfoFormat.Json => ".json"
  | InfoFormat.Html => ".html"
  | InfoFormat.Xml => ".xml"

/-- The `--output=…` argument the spec maps each format to (spec §6). -/
def specFormatArg : InfoFormat → String
  | InfoFormat.Json => "--output=JSON"
  | InfoFormat.Html => "--output=HTML"
  | InfoFormat.Xml => "--output=XML"

/-- The output path `write_info_to_file` resolves: the stem (or the fresh
identifier when the stem is empty) followed by the extension for the
format. -/
def outPath (env : Env) (stem : String) (F : InfoFormat) : String :=
  (if stem.isEmpty then uuidNew env.uuidSeed else stem) ++ specExt F

/-- Two subprocess execution results that agree on exit status and captured
standard output, differing at most in their captured standard-error bytes. -/
def sameModStderr (o1 o2 : ProcOutput) : Prop :=
  o1.success = o2.success ∧ o1.stdout = o2.stdout

/-- Two outcomes of `execute_with_args` that differ at most in the captured
standard-error bytes of a completed run. -/
def execAgrees : Except String ProcOutput → Except String ProcOutput → Prop
  | Except.ok o1, Except.ok o2 => sameModStderr o1 o2
  | Except.error e1, Except.error e2 => e1 = e2
  | _, _ => False

namespace MediaInfoExtractorService

lemma get_info_invoked (env : Env) (request : InfoExtractorRequest) :
    (get_info env request).invoked = buildArgs request := by
  simp only [get_info]
  cases henv : env.exec (buildArgs request) with
  | ok execution_result =>
    by_cases hs : execution_result.success <;> simp [hs]
  | error e => rfl

lemma buildArgs_eq (request : InfoExtractorRequest) :
    buildArgs request =
      specFormatArg (request.format.getD InfoFormat.Json) ::
        ((if request.full.getD true then ["--full"] else []) ++ [request.input]) := by
  obtain ⟨input, format, full, output_file⟩ := request
  rcases full with _ | b
  · rfl
  · cases b <;> rfl

/-- **C4**: `get_info` passes the subprocess the `--output=…` argument for the
resolved format first, then `--full` exactly when the resolved full flag is
true, then the input path last; in particular a request for `clip.mp4` with
every optional field omitted is invoked as
`["--output=JSON", "--full", "clip.mp4"]`. -/
theorem get_info_argument_order (env : Env) (request : InfoExtractorRequest) :
    (get_info env request).invoked =
      specFormatArg (request.format.getD InfoFormat.Json) ::
        ((if request.full.getD true then ["--full"] else []) ++ [request.input]) ∧
    (get_info env
        { input := "clip.mp4", format := none, full := none,
          output_file := none }).invoked =
      ["--output=JSON", "--full", "clip.mp4"] :=
  ⟨(get_info_invoked env request).trans (buildArgs_eq request),
   (get_info_invoked env _).trans rfl⟩

/-- **C8**: omitting the full flag is equivalent to passing `full = true`, and
omitting the format is equivalent to passing `format = Json`: the rest of the
request being equal, `get_info` behaves identically. -/
theorem get_info_defaults (env : Env) (input : String) (fmt : Option InfoFormat)
    (fl : Option Bool) (out : Option String) :
    get_info env
        { input := input, format := fmt, full := none, output_file := out } =
      get_info env
        { input := input, format := fmt, full := some true, output_file := out } ∧
    get_info env
        { input := input, format := none, full := fl, output_file := out } =
      get_info env
        { input := input, format := some InfoFormat.Json, full := fl,
          output_file := out } :=
  ⟨rfl, rfl⟩

/-- **C2**: when the subprocess exits with a non-success status, `get_info`
prints the captured standard output to the caller-visible stream and returns
the `CommandError` "Command execution returned ERROR status" — never a
successful response — no matter what the captured standard output was. -/
theorem get_info_error_status (env : Env) (request : InfoExtractorRequest)
    (execution_result : ProcOutput)
    (hexec : env.exec (buildArgs request) = Except.ok execution_result)
    (hstatus : execution_result.success = false) :
    get_info env request =
      { result := Except.error
          (AtiumError.CommandError "Command execution returned ERROR status")
        console := [execution_result.stdout]
        invoked := buildArgs request
        written := [] } := by
  simp [get_info, hexec, hstatus]

/-- Witness for C2 at a concrete failing run: the tool exits non-zero having
written "err" (bytes 101 114 114) to stdout. -/
theorem get_info_error_status_witness :
    get_info
        { exec := fun _ =>
            Except.ok { success := false, stdout := [101, 114, 114], stderr := [] }
          fsWrite := fun _ _ => Except.ok ()
          uuidSeed := 0 }
        { input := "clip.mp4", format := none, full := none, output_file := none } =
      { result := Except.error
          (AtiumError.CommandError "Command execution returned ERROR status")
        console := [[101, 114, 114]]
        invoked := ["--output=JSON", "--full", "clip.mp4"]
        written := [] } :=
  get_info_error_status _ _ _ rfl rfl

/-- **C9**: when the subprocess fails to spawn, `get_info` returns the generic
`CommandError` "Could not execute command"; the result is a constant that does
not depend on the spawn-level error detail. -/
theorem get_info_spawn_failure (env : Env) (request : InfoExtractorRequest)
    (spawnDetail : String)
    (hexec : env.exec (buildArgs request) = Except.error spawnDetail) :
    get_info env request =
      { result := Except.error (AtiumError.CommandError "Could not execute command")
        console := []
        invoked := buildArgs request
        written := [] } := by
  simp [get_info, hexec]

/-- Witness for C9 at a concrete spawn failure carrying an OS-level detail
message that the returned error does not contain. -/
theorem get_info_spawn_failure_witness :
    get_info
        { exec := fun _ => Except.error "No such file or directory (os error 2)"
          fsWrite := fun _ _ => Except.ok ()
          uuidSeed := 0 }
        { input := "clip.mp4", format := none, full := none, output_file := none } =
      { result := Except.error (AtiumError.CommandError "Could not execute command")
        console := []
        invoked := ["--output=JSON", "--full", "clip.mp4"]
        written := [] } :=
  get_info_spawn_failure _ _ "No such file or directory (os error 2)" rfl

end MediaInfoExtractorService

namespace MediaInfoExtractorService

lemma extFor_specExt (F : InfoFormat) : extFor F = specExt F := by
  cases F <;> rfl

lemma write_info_to_file_eq (env : Env) (output : ProcOutput) (stem : String)
    (F : InfoFormat) :
    write_info_to_file env output stem F =
      match env.fsWrite (outPath env stem F) output.stdout with
      | Except.ok _ => (Except.ok (outPath env stem F), [(outPath env stem F, output.stdout)])
      | Except.error _ =>
        (Except.error "could not write to file!", [(outPath env stem F, output.stdout)]) := by
  cases hw : env.fsWrite (outPath env stem F) output.stdout <;>
    (simp only [outPath] at hw
     simp [write_info_to_file, outPath, extFor_specExt, hw])

lemma write_result_some (env : Env) (output : ProcOutput) (stem : String)
    (F : InfoFormat) :
    write_result env output (some stem) F =
      match env.fsWrite (outPath env stem F) output.stdout with
      | Except.ok _ =>
        (Except.ok { output := { file := some (outPath env stem F) } }, [],
          [(outPath env stem F, output.stdout)])
      | Except.error _ =>
        (Except.error (AtiumError.IOError "could not write to file!"), [],
          [(outPath env stem F, output.stdout)]) := by
  cases hw : env.fsWrite (outPath env stem F) output.stdout <;>
    simp [write_result, write_info_to_file_eq, hw]

lemma get_info_success_none (env : Env) (request : InfoExtractorRequest)
    (execution_result : ProcOutput)
    (hexec : env.exec (buildArgs request) = Except.ok execution_result)
    (hstatus : execution_result.success = true)
    (hfile : request.output_file = none) :
    get_info env request =
      { result := Except.ok { output := { file := none } }
        console := [execution_result.stdout]
        invoked := buildArgs request
        written := [] } := by
  simp [get_info, hexec, hstatus, write_result, write_to_stdout, hfile]

lemma get_info_success_some (env : Env) (request : InfoExtractorRequest)
    (execution_result : ProcOutput) (stem : String)
    (hexec : env.exec (buildArgs request) = Except.ok execution_result)
    (hstatus : execution_result.success = true)
    (hfile : request.output_file = some stem) :
    get_info env request =
      match env.fsWrite (outPath env stem (request.format.getD InfoFormat.Json))
          execution_result.stdout with
      | Except.ok _ =>
        { result := Except.ok { output := { file := some (outPath env stem (request.format.getD InfoFormat.Json)) } }
          console := []
          invoked := buildArgs request
          written := [(outPath env stem (request.format.getD InfoFormat.Json),
            execution_result.stdout)] }
      | Except.error _ =>
        { result := Except.error (AtiumError.IOError "could not write to file!")
          console := []
          invoked := buildArgs request
          written := [(outPath env stem (request.format.getD InfoFormat.Json),
            execution_result.stdout)] } := by
  cases hw : env.fsWrite (outPath env stem (request.format.getD InfoFormat.Json))
      execution_result.stdout <;>
    simp [get_info, hexec, hstatus, hfile, write_result_some, hw]

end MediaInfoExtractorService

namespace MediaInfoExtractorService

/-- **C3**: for every non-empty output-file stem `S` and every format `F`, a
successful `get_info` with `output_file = S` answers a response whose file
field is `S` concatenated with the extension the spec maps `F` to (`.json`,
`.html`, `.xml`). -/
theorem get_info_named_output_file (env : Env) (request : InfoExtractorRequest)
    (execution_result : ProcOutput) (S : String) (F : InfoFormat)
    (hexec : env.exec (buildArgs request) = Except.ok execution_result)
    (hstatus : execution_result.success = true)
    (hfile : request.output_file = some S)
    (hS : S.isEmpty = false)
    (hfmt : request.format = some F)
    (hwrite : env.fsWrite (S ++ specExt F) execution_result.stdout = Except.ok ()) :
    (get_info env request).result =
      Except.ok { output := { file := some (S ++ specExt F) } } := by
  have hpath : outPath env S F = S ++ specExt F := by simp [outPath, hS]
  have h := get_info_success_some env request execution_result S hexec hstatus hfile
  rw [hfmt, Option.getD_some, hpath] at h
  rw [h, hwrite]

/-- Witness for C3: stem "report", format XML, a successful run; the response
names `report.xml`. -/
theorem get_info_named_output_file_witness :
    (get_info
        { exec := fun _ =>
            Except.ok { success := true, stdout := [60, 77, 62], stderr := [] }
          fsWrite := fun _ _ => Except.ok ()
          uuidSeed := 0 }
        { input := "clip.mp4", format := some InfoFormat.Xml, full := none,
          output_file := some "report" }).result =
      Except.ok { output := { file := some ("report" ++ specExt InfoFormat.Xml) } } ∧
    "report" ++ specExt InfoFormat.Xml = "report.xml" :=
  ⟨get_info_named_output_file _ _ _ "report" InfoFormat.Xml rfl rfl rfl (by decide)
      rfl rfl,
   by decide⟩

/-- **C7**: when an output file was requested and the file write fails,
`get_info` returns the `IOError` "could not write to file!" and no successful
response. -/
theorem get_info_write_failure (env : Env) (request : InfoExtractorRequest)
    (execution_result : ProcOutput) (stem : String) (ioDetail : String)
    (hexec : env.exec (buildArgs request) = Except.ok execution_result)
    (hstatus : execution_result.success = true)
    (hfile : request.output_file = some stem)
    (hwrite : env.fsWrite (outPath env stem (request.format.getD InfoFormat.Json))
        execution_result.stdout = Except.error ioDetail) :
    (get_info env request).result =
      Except.error (AtiumError.IOError "could not write to file!") := by
  rw [get_info_success_some env request execution_result stem hexec hstatus hfile,
    hwrite]

/-- Witness for C7: every write fails with a permission error; the call
answers the typed `IOError`. -/
theorem get_info_write_failure_witness :
    (get_info
        { exec := fun _ =>
            Except.ok { success := true, stdout := [60], stderr := [] }
          fsWrite := fun _ _ => Except.error "Permission denied (os error 13)"
          uuidSeed := 0 }
        { input := "clip.mp4", format := none, full := none,
          output_file := some "report" }).result =
      Except.error (AtiumError.IOError "could not write to file!") :=
  get_info_write_failure _ _ _ "report" "Permission denied (os error 13)" rfl rfl
    rfl rfl

/-- **C5**: on every successful `get_info` the response's file field is
present exactly when the request's `output_file` was provided; and with no
output file requested the response has `file = None` while the raw captured
output goes to the caller-visible stream. -/
theorem get_info_file_presence (env : Env) (request : InfoExtractorRequest) :
    (∀ resp, (get_info env request).result = Except.ok resp →
      resp.output.file.isSome = request.output_file.isSome) ∧
    (∀ execution_result,
      env.exec (buildArgs request) = Except.ok execution_result →
      execution_result.success = true → request.output_file = none →
      get_info env request =
        { result := Except.ok { output := { file := none } }
          console := [execution_result.stdout]
          invoked := buildArgs request
          written := [] }) := by
  constructor
  · intro resp hresp
    cases henv : env.exec (buildArgs request) with
    | error e =>
      rw [get_info_spawn_failure env request e henv] at hresp
      simp at hresp
    | ok out =>
      cases hs : out.success with
      | false =>
        rw [get_info_error_status env request out henv hs] at hresp
        simp at hresp
      | true =>
        cases hofile : request.output_file with
        | none =>
          rw [get_info_success_none env request out henv hs hofile] at hresp
          simp only [Except.ok.injEq] at hresp
          rw [← hresp]
        | some stem =>
          rw [get_info_success_some env request out stem henv hs hofile] at hresp
          cases hw : env.fsWrite
              (outPath env stem (request.format.getD InfoFormat.Json))
              out.stdout with
          | ok u =>
            rw [hw] at hresp
            simp only [Except.ok.injEq] at hresp
            rw [← hresp]
            rfl
          | error e =>
            rw [hw] at hresp
            simp at hresp
  · intro execution_result hexec hstatus hofile
    exact get_info_success_none env request execution_result hexec hstatus hofile

/-- Witness for C5 at a concrete successful run with no output file: the
response carries no file and the captured bytes are printed. -/
theorem get_info_file_presence_witness :
    (({ output := { file := none } } : InfoExtractorResponse).output.file.isSome =
      (none : Option String).isSome) ∧
    get_info
        { exec := fun _ =>
            Except.ok { success := true, stdout := [72, 105], stderr := [] }
          fsWrite := fun _ _ => Except.ok ()
          uuidSeed := 0 }
        { input := "clip.mp4", format := none, full := none, output_file := none } =
      { result := Except.ok { output := { file := none } }
        console := [[72, 105]]
        invoked := ["--output=JSON", "--full", "clip.mp4"]
        written := [] } :=
  ⟨(get_info_file_presence
      { exec := fun _ =>
          Except.ok { success := true, stdout := [72, 105], stderr := [] }
        fsWrite := fun _ _ => Except.ok ()
        uuidSeed := 0 }
      { input := "clip.mp4", format := none, full := none,
        output_file := none }).1 { output := { file := none } } rfl,
   (get_info_file_presence
      { exec := fun _ =>
          Except.ok { success := true, stdout := [72, 105], stderr := [] }
        fsWrite := fun _ _ => Except.ok ()
        uuidSeed := 0 }
      { input := "clip.mp4", format := none, full := none,
        output_file := none }).2 _ rfl rfl rfl⟩

end MediaInfoExtractorService

lemma charToDigit_digitToChar {d : Nat} (hd : d < 10) :
    charToDigit (digitToChar d) = d := by
  interval_cases d <;> rfl

lemma digits_map_digitToChar_cancel (n : Nat) :
    ((Nat.digits 10 n).map digitToChar).map charToDigit = Nat.digits 10 n := by
  rw [List.map_map]
  have hall : ∀ d ∈ Nat.digits 10 n, (charToDigit ∘ digitToChar) d = d := by
    intro d hd
    exact charToDigit_digitToChar (Nat.digits_lt_base (by norm_num) hd)
  rw [List.map_congr_left hall]
  simp

lemma uuidNew_inj {s1 s2 : Nat} (h : uuidNew s1 = uuidNew s2) : s1 = s2 := by
  have hdata := congrArg String.data h
  rw [uuidNew, uuidNew, String.data_append, String.data_append] at hdata
  have hl : (Nat.digits 10 s1).map digitToChar = (Nat.digits 10 s2).map digitToChar :=
    List.append_cancel_left hdata
  have hdg : Nat.digits 10 s1 = Nat.digits 10 s2 := by
    rw [← digits_map_digitToChar_cancel s1, ← digits_map_digitToChar_cancel s2, hl]
  exact Nat.digits.injective 10 hdg

lemma string_append_right_cancel {a b c : String} (h : a ++ c = b ++ c) :
    a = b := by
  have hdata := congrArg String.data h
  rw [String.data_append, String.data_append] at hdata
  exact String.ext (List.append_cancel_right hdata)

lemma outPath_empty (env : Env) (F : InfoFormat) :
    outPath env "" F = uuidNew env.uuidSeed ++ specExt F := rfl

lemma specExt_length_pos (F : InfoFormat) : 1 ≤ (specExt F).length := by
  cases F <;> decide

lemma append_specExt_ne_empty (s : String) (F : InfoFormat) :
    s ++ specExt F ≠ "" := by
  intro h
  have hlen := congrArg String.length h
  rw [String.length_append] at hlen
  have h1 := specExt_length_pos F
  have h0 : ("" : String).length = 0 := rfl
  omega

namespace MediaInfoExtractorService

/-- **C6**: with an empty output-file stem, a successful `get_info` writes to
a generated filename that is non-empty, carries the extension of the resolved
format, and differs between two calls that consume distinct freshness seeds of
the identifier generator. -/
theorem get_info_empty_stem (env1 env2 : Env) (request : InfoExtractorRequest)
    (o1 o2 : ProcOutput) (F : InfoFormat)
    (hfmt : request.format = some F)
    (hfile : request.output_file = some "")
    (h1 : env1.exec (buildArgs request) = Except.ok o1)
    (h1s : o1.success = true)
    (h2 : env2.exec (buildArgs request) = Except.ok o2)
    (h2s : o2.success = true)
    (hw1 : env1.fsWrite (uuidNew env1.uuidSeed ++ specExt F) o1.stdout = Except.ok ())
    (hw2 : env2.fsWrite (uuidNew env2.uuidSeed ++ specExt F) o2.stdout = Except.ok ())
    (hseed : env1.uuidSeed ≠ env2.uuidSeed) :
    (get_info env1 request).result =
      Except.ok { output := { file := some (uuidNew env1.uuidSeed ++ specExt F) } } ∧
    (get_info env2 request).result =
      Except.ok { output := { file := some (uuidNew env2.uuidSeed ++ specExt F) } } ∧
    uuidNew env1.uuidSeed ++ specExt F ≠ "" ∧
    uuidNew env2.uuidSeed ++ specExt F ≠ "" ∧
    uuidNew env1.uuidSeed ++ specExt F ≠ uuidNew env2.uuidSeed ++ specExt F := by
  have hp1 : outPath env1 "" (request.format.getD InfoFormat.Json) =
      uuidNew env1.uuidSeed ++ specExt F := by
    rw [hfmt, Option.getD_some, outPath_empty]
  have hp2 : outPath env2 "" (request.format.getD InfoFormat.Json) =
      uuidNew env2.uuidSeed ++ specExt F := by
    rw [hfmt, Option.getD_some, outPath_empty]
  refine ⟨?_, ?_, ?_, ?_, ?_⟩
  · rw [get_info_success_some env1 request o1 "" h1 h1s hfile, hp1, hw1]
  · rw [get_info_success_some env2 request o2 "" h2 h2s hfile, hp2, hw2]
  · exact append_specExt_ne_empty _ F
  · exact append_specExt_ne_empty _ F
  · intro h
    exact hseed (uuidNew_inj (string_append_right_cancel h))

/-- Witness for C6: two runs consuming seeds 0 and 1, empty stem, JSON
format. -/
theorem get_info_empty_stem_witness :
    (get_info
        { exec := fun _ =>
            Except.ok { success := true, stdout := [10], stderr := [] }
          fsWrite := fun _ _ => Except.ok ()
          uuidSeed := 0 }
        { input := "clip.mp4", format := some InfoFormat.Json, full := none,
          output_file := some "" }).result =
      Except.ok { output := { file := some (uuidNew 0 ++ specExt InfoFormat.Json) } } ∧
    (get_info
        { exec := fun _ =>
            Except.ok { success := true, stdout := [10], stderr := [] }
          fsWrite := fun _ _ => Except.ok ()
          uuidSeed := 1 }
        { input := "clip.mp4", format := some InfoFormat.Json, full := none,
          output_file := some "" }).result =
      Except.ok { output := { file := some (uuidNew 1 ++ specExt InfoFormat.Json) } } ∧
    uuidNew 0 ++ specExt InfoFormat.Json ≠ "" ∧
    uuidNew 1 ++ specExt InfoFormat.Json ≠ "" ∧
    uuidNew 0 ++ specExt InfoFormat.Json ≠ uuidNew 1 ++ specExt InfoFormat.Json :=
  get_info_empty_stem
    { exec := fun _ => Except.ok { success := true, stdout := [10], stderr := [] }
      fsWrite := fun _ _ => Except.ok ()
      uuidSeed := 0 }
    { exec := fun _ => Except.ok { success := true, stdout := [10], stderr := [] }
      fsWrite := fun _ _ => Except.ok ()
      uuidSeed := 1 }
    { input := "clip.mp4", format := some InfoFormat.Json, full := none,
      output_file := some "" }
    { success := true, stdout := [10], stderr := [] }
    { success := true, stdout := [10], stderr := [] }
    InfoFormat.Json rfl rfl rfl rfl rfl rfl rfl rfl (by decide)

end MediaInfoExtractorService

namespace MediaInfoExtractorService

/-- **C10**: `get_info` never reads the captured standard error: two runs
whose subprocess outcomes differ only in the captured standard-error bytes
produce identical observable results — same returned value, same console
output, same invocation, same file writes. -/
theorem get_info_stderr_noninterference (env1 env2 : Env)
    (request : InfoExtractorRequest)
    (hfs : env1.fsWrite = env2.fsWrite)
    (hseed : env1.uuidSeed = env2.uuidSeed)
    (hexec : execAgrees (env1.exec (buildArgs request))
      (env2.exec (buildArgs request))) :
    get_info env1 request = get_info env2 request := by
  cases h1 : env1.exec (buildArgs request) with
  | error e1 =>
    cases h2 : env2.exec (buildArgs request) with
    | error e2 =>
      rw [get_info_spawn_failure env1 request e1 h1,
        get_info_spawn_failure env2 request e2 h2]
    | ok o2 =>
      rw [h1, h2] at hexec
      exact absurd hexec (by simp [execAgrees])
  | ok o1 =>
    cases h2 : env2.exec (buildArgs request) with
    | error e2 =>
      rw [h1, h2] at hexec
      exact absurd hexec (by simp [execAgrees])
    | ok o2 =>
      rw [h1, h2] at hexec
      obtain ⟨hsuc, hout⟩ := hexec
      cases hs : o1.success with
      | false =>
        rw [get_info_error_status env1 request o1 h1 hs,
          get_info_error_status env2 request o2 h2 (hsuc.symm.trans hs), hout]
      | true =>
        cases hofile : request.output_file with
        | none =>
          rw [get_info_success_none env1 request o1 h1 hs hofile,
            get_info_success_none env2 request o2 h2 (hsuc.symm.trans hs) hofile,
            hout]
        | some stem =>
          have hpath : outPath env1 stem (request.format.getD InfoFormat.Json) =
              outPath env2 stem (request.format.getD InfoFormat.Json) := by
            rw [outPath, outPath, hseed]
          rw [get_info_success_some env1 request o1 stem h1 hs hofile,
            get_info_success_some env2 request o2 stem h2 (hsuc.symm.trans hs)
              hofile, hout, hfs, hpath]

/-- Witness for C10: the two environments differ only in the stderr bytes the
tool produced; `get_info` is observationally identical on both. -/
theorem get_info_stderr_noninterference_witness :
    get_info
        { exec := fun _ =>
            Except.ok { success := true, stdout := [7], stderr := [1, 2, 3] }
          fsWrite := fun _ _ => Except.ok ()
          uuidSeed := 0 }
        { input := "clip.mp4", format := none, full := none, output_file := none } =
      get_info
        { exec := fun _ =>
            Except.ok { success := true, stdout := [7], stderr := [9, 9] }
          fsWrite := fun _ _ => Except.ok ()
          uuidSeed := 0 }
        { input := "clip.mp4", format := none, full := none, output_file := none } :=
  get_info_stderr_noninterference
    { exec := fun _ =>
        Except.ok { success := true, stdout := [7], stderr := [1, 2, 3] }
      fsWrite := fun _ _ => Except.ok ()
      uuidSeed := 0 }
    { exec := fun _ =>
        Except.ok { success := true, stdout := [7], stderr := [9, 9] }
      fsWrite := fun _ _ => Except.ok ()
      uuidSeed := 0 }
    { input := "clip.mp4", format := none, full := none, output_file := none }
    rfl rfl ⟨rfl, rfl⟩

end MediaInfoExtractorService

/-- **C1** (code bug): with the version probe succeeding,
`InfoExtractorBuilder::new` returns a ready-to-use service bound to the
verified command manager; but when the probe fails, the builder panics with
"could not load command!" via `.expect` instead of returning the `Result`
error value its signature promises. -/
theorem builder_new_probe_outcomes :
    InfoExtractorBuilder.new
        (Except.ok { commandName := "mediainfo" }) InfoExtractorEngine.MediaInfo =
      RustOutcome.ok
        (Except.ok { command_manager := { commandName := "mediainfo" } }) ∧
    InfoExtractorBuilder.new
        (Except.error "No such file or directory (os error 2)")
        InfoExtractorEngine.MediaInfo =
      RustOutcome.panicked "could not load command!" ∧
    ∀ e : String,
      InfoExtractorBuilder.new (Except.error e) InfoExtractorEngine.MediaInfo =
        RustOutcome.panicked "could not load command!" :=
  ⟨rfl, rfl, fun _ => rfl⟩
